import Mathlib

/-!
Verification of the service layer of the Content-Factory client.

The repository is a TypeScript client whose service layer drives
long-running provider operations: file upload, remote analysis,
polling-until-done, result retrieval and cleanup.  The definitions below
are a shallow embedding of that service layer: each JavaScript `async`
function becomes a Lean function from an explicit environment (the
results of the provider calls it awaits) to its result together with the
trace of externally visible requests it issued.  A thrown JavaScript
exception is modelled as `Except.error`; straight-line `await` code is
modelled by sequencing `Except` values, so an error cuts the run short
exactly where the source code would propagate the exception.
-/

/-- A JavaScript `Error` value, identified by its message string, as every
error raised or inspected by the service layer is an `Error` with a
message. -/
inductive Err where
  | msg (s : String)
deriving DecidableEq, Repr

/-- The message carried by an error, corresponding to `err.message`. -/
def Err.message : Err → String
  | .msg s => s

/-- Whether a character list starts with the given needle, auxiliary for
substring search. -/
def matchesAt : List Char → List Char → Bool
  | [], _ => true
  | _ :: _, [] => false
  | c :: cs, d :: ds => c == d && matchesAt cs ds

/-- Whether a character list contains the needle as a contiguous
sublist, auxiliary for substring search. -/
def hasSub : List Char → List Char → Bool
  | needle, [] => needle.isEmpty
  | needle, c :: cs => matchesAt needle (c :: cs) || hasSub needle cs

/-- JavaScript `hay.includes(sub)`: substring containment on strings. -/
def strIncludes (hay sub : String) : Bool :=
  hasSub sub.toList hay.toList

/-- The `file` resource returned by the upload endpoint: its remote
`name` (used for deletion) and `uri` (used for analysis). -/
structure FileHandle where
  name : String
  uri : String
deriving DecidableEq, Repr

/-- The outcome of the multipart upload fetch in `uploadFile`: whether the
HTTP response was ok, the response body as text (quoted in the error
message when not ok), and the parsed `file` field (used when ok). -/
structure UploadResp where
  ok : Bool
  text : String
  file : FileHandle
deriving Repr

/-- An externally visible request or callback issued by the
upload-analyze-cleanup pipeline (`analyzeVideoContent` and
`analyzeAudioContent`). -/
inductive Event where
  | obs (state : String)
  | uploadReq
  | analyzeReq (uri : String)
  | deleteReq (name : String)
deriving DecidableEq, Repr

/-- Whether an event is a remote-file delete request. -/
def Event.isDelete : Event → Bool
  | .deleteReq _ => true
  | _ => false

/-- Model of `uploadFile` (service layer, lines 121-157): if no API key is
present it throws before any request is issued; otherwise the multipart
upload fetch is issued, and a non-ok response makes it throw
`File upload failed: <body>` while an ok response yields the parsed file
resource. -/
def uploadFile (apiKey : Option String) (resp : UploadResp) :
    Except Err FileHandle × List Event :=
  match apiKey with
  | none => (.error (.msg "API key not found for file upload."), [])
  | some _ =>
    if resp.ok then
      (.ok resp.file, [.uploadReq])
    else
      (.error (.msg ("File upload failed: " ++ resp.text)), [.uploadReq])

/-- The environment of one run of the analysis pipeline: the ambient API
key, the outcome of the upload fetch, the behaviour of the
`onStateChange` observer on each state string (`Except.error` models the
observer throwing), and the outcome of the `generateContent` analysis
call as a function of the uploaded file uri. -/
structure AnalyzeEnv where
  apiKey : Option String
  uploadResp : UploadResp
  observer : String → Except Err Unit
  analyze : String → Except Err String

/-- Model of `analyzeVideoContent` (service layer, lines 159-180): notify
the observer with state `uploading`, await `uploadFile`, notify with
`analyzing`, await the `generateContent` analysis call, then issue the
fire-and-forget DELETE request for the uploaded file and return the
analysis text.  The source has no try/catch, so any exception propagates
and cuts the run short at that point; the DELETE fetch is not awaited, so
it is recorded as an issued request and cannot affect the result. -/
def analyzeVideoContent (env : AnalyzeEnv) : Except Err String × List Event :=
  match env.observer "uploading" with
  | .error e => (.error e, [.obs "uploading"])
  | .ok _ =>
    let up := uploadFile env.apiKey env.uploadResp
    match up.1 with
    | .error e => (.error e, .obs "uploading" :: up.2)
    | .ok f =>
      match env.observer "analyzing" with
      | .error e => (.error e, .obs "uploading" :: up.2 ++ [.obs "analyzing"])
      | .ok _ =>
        match env.analyze f.uri with
        | .error e =>
          (.error e, .obs "uploading" :: up.2 ++ [.obs "analyzing", .analyzeReq f.uri])
        | .ok text =>
          (.ok text,
           .obs "uploading" :: up.2 ++
             [.obs "analyzing", .analyzeReq f.uri, .deleteReq f.name])

/-- Model of `analyzeAudioContent` (service layer, lines 182-203); its
control flow is line-for-line the same as `analyzeVideoContent`, only the
file and prompt differ, which the environment abstracts. -/
def analyzeAudioContent (env : AnalyzeEnv) : Except Err String × List Event :=
  match env.observer "uploading" with
  | .error e => (.error e, [.obs "uploading"])
  | .ok _ =>
    let up := uploadFile env.apiKey env.uploadResp
    match up.1 with
    | .error e => (.error e, .obs "uploading" :: up.2)
    | .ok f =>
      match env.observer "analyzing" with
      | .error e => (.error e, .obs "uploading" :: up.2 ++ [.obs "analyzing"])
      | .ok _ =>
        match env.analyze f.uri with
        | .error e =>
          (.error e, .obs "uploading" :: up.2 ++ [.obs "analyzing", .analyzeReq f.uri])
        | .ok text =>
          (.ok text,
           .obs "uploading" :: up.2 ++
             [.obs "analyzing", .analyzeReq f.uri, .deleteReq f.name])

/-- Concrete pipeline environment in which the upload succeeds and the
analysis call fails. -/
def envAnalysisFails : AnalyzeEnv where
  apiKey := some "k"
  uploadResp := { ok := true, text := "", file := { name := "files/u1", uri := "uri1" } }
  observer := fun _ => .ok ()
  analyze := fun _ => .error (.msg "analysis boom")

/-- C1, counterexample: in a run where the upload succeeds and the
analysis call fails, the original analysis error is returned but the
remote-file delete request is NOT issued (zero delete requests, not
exactly one), refuting the claim that cleanup is still attempted. -/
theorem cleanup_not_issued_on_analysis_failure :
    (analyzeVideoContent envAnalysisFails).1 = .error (.msg "analysis boom") ∧
    Event.uploadReq ∈ (analyzeVideoContent envAnalysisFails).2 ∧
    (analyzeVideoContent envAnalysisFails).2.countP Event.isDelete ≠ 1 :=
  ⟨rfl, by decide, by decide⟩

/-- C1, amended: when the upload succeeds but the analysis call fails, no
delete request is issued at all (the source has no try/catch around the
analysis call, so the cleanup line is never reached) and the error
returned to the caller is the original analysis error; this holds for
both `analyzeVideoContent` and `analyzeAudioContent`. -/
theorem analysis_failure_skips_cleanup (env : AnalyzeEnv) (key : String) (e : Err)
    (hobs1 : env.observer "uploading" = .ok ())
    (hkey : env.apiKey = some key)
    (hup : env.uploadResp.ok = true)
    (hobs2 : env.observer "analyzing" = .ok ())
    (han : env.analyze env.uploadResp.file.uri = .error e) :
    analyzeVideoContent env =
      (.error e, [.obs "uploading", .uploadReq, .obs "analyzing",
                  .analyzeReq env.uploadResp.file.uri]) ∧
    analyzeAudioContent env =
      (.error e, [.obs "uploading", .uploadReq, .obs "analyzing",
                  .analyzeReq env.uploadResp.file.uri]) ∧
    (analyzeVideoContent env).2.countP Event.isDelete = 0 ∧
    (analyzeAudioContent env).2.countP Event.isDelete = 0 := by
  have hupload : uploadFile env.apiKey env.uploadResp = (.ok env.uploadResp.file, [.uploadReq]) := by
    rw [hkey]; simp [uploadFile, hup]
  constructor
  · simp [analyzeVideoContent, hobs1, hobs2, hupload, han]
  constructor
  · simp [analyzeAudioContent, hobs1, hobs2, hupload, han]
  constructor
  · simp [analyzeVideoContent, hobs1, hobs2, hupload, han, Event.isDelete]
  · simp [analyzeAudioContent, hobs1, hobs2, hupload, han, Event.isDelete]

/-- C1, witness: the amended theorem applied to the concrete environment
`envAnalysisFails`. -/
theorem analysis_failure_skips_cleanup_witness :
    analyzeVideoContent envAnalysisFails =
      (.error (.msg "analysis boom"),
       [.obs "uploading", .uploadReq, .obs "analyzing", .analyzeReq "uri1"]) ∧
    analyzeAudioContent envAnalysisFails =
      (.error (.msg "analysis boom"),
       [.obs "uploading", .uploadReq, .obs "analyzing", .analyzeReq "uri1"]) ∧
    (analyzeVideoContent envAnalysisFails).2.countP Event.isDelete = 0 ∧
    (analyzeAudioContent envAnalysisFails).2.countP Event.isDelete = 0 :=
  analysis_failure_skips_cleanup envAnalysisFails "k" (.msg "analysis boom")
    rfl rfl rfl rfl rfl

/-- Concrete pipeline environment in which the observer throws on every
state transition while upload and analysis would both succeed. -/
def envObserverThrows : AnalyzeEnv where
  apiKey := some "k"
  uploadResp := { ok := true, text := "", file := { name := "files/u2", uri := "uri2" } }
  observer := fun _ => .error (.msg "observer boom")
  analyze := fun _ => .ok "analysis result"

/-- C2, counterexample: with an observer that throws on the `uploading`
transition and provider stubs that would succeed, the run returns the
observer error and issues no upload, analysis or delete request at all,
refuting the claim that an observer failure does not abort the task. -/
theorem observer_throw_aborts_task :
    analyzeVideoContent envObserverThrows =
      (.error (.msg "observer boom"), [.obs "uploading"]) ∧
    Event.uploadReq ∉ (analyzeVideoContent envObserverThrows).2 ∧
    (analyzeVideoContent envObserverThrows).1 ≠ .ok "analysis result" :=
  ⟨rfl, by decide, fun h => nomatch h⟩

/-- C2, amended: the observer is invoked synchronously with no protection,
so if it throws the exception propagates to the caller and the task is
aborted: a throw on `uploading` prevents the upload and everything after
it, and a throw on `analyzing` (after a successful upload) prevents the
analysis call and the cleanup, in both `analyzeVideoContent` and
`analyzeAudioContent`. -/
theorem observer_failure_propagates (env : AnalyzeEnv) (e : Err) :
    (env.observer "uploading" = .error e →
      analyzeVideoContent env = (.error e, [.obs "uploading"]) ∧
      analyzeAudioContent env = (.error e, [.obs "uploading"])) ∧
    (∀ key, env.observer "uploading" = .ok () → env.apiKey = some key →
      env.uploadResp.ok = true → env.observer "analyzing" = .error e →
      analyzeVideoContent env =
        (.error e, [.obs "uploading", .uploadReq, .obs "analyzing"]) ∧
      analyzeAudioContent env =
        (.error e, [.obs "uploading", .uploadReq, .obs "analyzing"])) := by
  constructor
  · intro hobs
    exact ⟨by simp [analyzeVideoContent, hobs], by simp [analyzeAudioContent, hobs]⟩
  · intro key hobs1 hkey hup hobs2
    have hupload : uploadFile env.apiKey env.uploadResp =
        (.ok env.uploadResp.file, [.uploadReq]) := by
      rw [hkey]; simp [uploadFile, hup]
    exact ⟨by simp [analyzeVideoContent, hobs1, hupload, hobs2],
           by simp [analyzeAudioContent, hobs1, hupload, hobs2]⟩

/-- C2, witness: the amended theorem applied to the concrete environment
`envObserverThrows`, whose observer throws on the first transition. -/
theorem observer_failure_propagates_witness :
    analyzeVideoContent envObserverThrows =
      (.error (.msg "observer boom"), [.obs "uploading"]) ∧
    analyzeAudioContent envObserverThrows =
      (.error (.msg "observer boom"), [.obs "uploading"]) :=
  (observer_failure_propagates envObserverThrows (.msg "observer boom")).1 rfl

/-- Concrete pipeline environment in which the upload fetch returns a
non-ok response. -/
def envUploadFails : AnalyzeEnv where
  apiKey := some "k"
  uploadResp := { ok := false, text := "quota exceeded", file := { name := "", uri := "" } }
  observer := fun _ => .ok ()
  analyze := fun _ => .ok "analysis result"

/-- C4: when the upload fetch returns a non-ok response, `uploadFile`
throws `File upload failed: <body>`, that error propagates unchanged to
the caller of `analyzeVideoContent` / `analyzeAudioContent`, and no
delete request is ever issued for any remote handle. -/
theorem upload_failure_no_cleanup (env : AnalyzeEnv) (key : String)
    (hobs : env.observer "uploading" = .ok ())
    (hkey : env.apiKey = some key)
    (hup : env.uploadResp.ok = false) :
    analyzeVideoContent env =
      (.error (.msg ("File upload failed: " ++ env.uploadResp.text)),
       [.obs "uploading", .uploadReq]) ∧
    analyzeAudioContent env =
      (.error (.msg ("File upload failed: " ++ env.uploadResp.text)),
       [.obs "uploading", .uploadReq]) ∧
    (∀ n, Event.deleteReq n ∉ (analyzeVideoContent env).2) ∧
    (∀ n, Event.deleteReq n ∉ (analyzeAudioContent env).2) := by
  have hupload : uploadFile env.apiKey env.uploadResp =
      (.error (.msg ("File upload failed: " ++ env.uploadResp.text)), [.uploadReq]) := by
    rw [hkey]; simp [uploadFile, hup]
  refine ⟨by simp [analyzeVideoContent, hobs, hupload], by simp [analyzeAudioContent, hobs, hupload], ?_, ?_⟩
  · intro n
    simp [analyzeVideoContent, hobs, hupload]
  · intro n
    simp [analyzeAudioContent, hobs, hupload]

/-- C4, witness: the theorem applied to the concrete environment
`envUploadFails`. -/
theorem upload_failure_no_cleanup_witness :
    analyzeVideoContent envUploadFails =
      (.error (.msg ("File upload failed: " ++ "quota exceeded")),
       [.obs "uploading", .uploadReq]) ∧
    analyzeAudioContent envUploadFails =
      (.error (.msg ("File upload failed: " ++ "quota exceeded")),
       [.obs "uploading", .uploadReq]) ∧
    Event.deleteReq "files/u9" ∉ (analyzeVideoContent envUploadFails).2 ∧
    Event.deleteReq "files/u9" ∉ (analyzeAudioContent envUploadFails).2 := by
  have h := upload_failure_no_cleanup envUploadFails "k" rfl rfl rfl
  exact ⟨h.1, h.2.1, h.2.2.1 "files/u9", h.2.2.2 "files/u9"⟩

/-- C7: in every run of `analyzeVideoContent` or `analyzeAudioContent` in
which the upload is reached and returns a handle, the trace starts with
the observer notification `uploading`, then the upload request, then the
notification `analyzing`, and no further observer notification of any
kind follows: each of the two notifications happens exactly once, in that
order, with `uploading` before the upload call and `analyzing` after the
upload returns and before any analysis request. -/
theorem observer_transitions_forward (env : AnalyzeEnv) (key : String)
    (hobs1 : env.observer "uploading" = .ok ())
    (hkey : env.apiKey = some key)
    (hup : env.uploadResp.ok = true) :
    (∃ rest, (analyzeVideoContent env).2 =
        [.obs "uploading", .uploadReq, .obs "analyzing"] ++ rest ∧
      ∀ s, Event.obs s ∉ rest) ∧
    (∃ rest, (analyzeAudioContent env).2 =
        [.obs "uploading", .uploadReq, .obs "analyzing"] ++ rest ∧
      ∀ s, Event.obs s ∉ rest) := by
  have hupload : uploadFile env.apiKey env.uploadResp =
      (.ok env.uploadResp.file, [.uploadReq]) := by
    rw [hkey]; simp [uploadFile, hup]
  constructor
  · cases hobs2 : env.observer "analyzing" with
    | error e =>
      exact ⟨[], by simp [analyzeVideoContent, hobs1, hupload, hobs2], by simp⟩
    | ok u =>
      cases han : env.analyze env.uploadResp.file.uri with
      | error e =>
        exact ⟨[.analyzeReq env.uploadResp.file.uri],
          by simp [analyzeVideoContent, hobs1, hupload, hobs2, han], by simp⟩
      | ok text =>
        exact ⟨[.analyzeReq env.uploadResp.file.uri, .deleteReq env.uploadResp.file.name],
          by simp [analyzeVideoContent, hobs1, hupload, hobs2, han], by simp⟩
  · cases hobs2 : env.observer "analyzing" with
    | error e =>
      exact ⟨[], by simp [analyzeAudioContent, hobs1, hupload, hobs2], by simp⟩
    | ok u =>
      cases han : env.analyze env.uploadResp.file.uri with
      | error e =>
        exact ⟨[.analyzeReq env.uploadResp.file.uri],
          by simp [analyzeAudioContent, hobs1, hupload, hobs2, han], by simp⟩
      | ok text =>
        exact ⟨[.analyzeReq env.uploadResp.file.uri, .deleteReq env.uploadResp.file.name],
          by simp [analyzeAudioContent, hobs1, hupload, hobs2, han], by simp⟩

/-- Concrete pipeline environment in which every step succeeds. -/
def envAllOk : AnalyzeEnv where
  apiKey := some "k"
  uploadResp := { ok := true, text := "", file := { name := "files/u3", uri := "uri3" } }
  observer := fun _ => .ok ()
  analyze := fun _ => .ok "analysis result"

/-- C7, witness: the theorem applied to the concrete all-succeeding
environment `envAllOk`. -/
theorem observer_transitions_forward_witness :
    (∃ rest, (analyzeVideoContent envAllOk).2 =
        [.obs "uploading", .uploadReq, .obs "analyzing"] ++ rest ∧
      ∀ s, Event.obs s ∉ rest) ∧
    (∃ rest, (analyzeAudioContent envAllOk).2 =
        [.obs "uploading", .uploadReq, .obs "analyzing"] ++ rest ∧
      ∀ s, Event.obs s ∉ rest) :=
  observer_transitions_forward envAllOk "k" rfl rfl rfl

/-- The provider-side handle for an in-progress video job: whether it is
done, and the result video uri (`operation.response?.generatedVideos?.[0]?.video?.uri`,
absent while pending or when generation produced nothing). -/
structure Operation where
  done : Bool
  resultUri : Option String
deriving DecidableEq, Repr

/-- An externally visible step of `generateVideo`: the initial
`generateVideos` request, a fixed-interval wait, a numbered
`getVideosOperation` poll request, or the fetch of the result bytes. -/
inductive VEvent where
  | genReq
  | wait (ms : Nat)
  | pollReq (k : Nat)
  | fetchReq (uri : String)
deriving DecidableEq, Repr

/-- Whether an event is a poll request. -/
def VEvent.isPoll : VEvent → Bool
  | .pollReq _ => true
  | _ => false

/-- The environment of one `generateVideo` run: the outcome of the
initial `generateVideos` call, the outcome of the k-th
`getVideosOperation` poll, the outcome of fetching the result bytes from
a download link (yielding the created blob URL), and fuel bounding how
many loop iterations are observed (the source loop has no bound of its
own; exhausted fuel models a run still inside the loop). -/
structure VideoEnv where
  initial : Except Err Operation
  poll : Nat → Except Err Operation
  fetchBlob : String → Except Err String
  fuel : Nat

/-- Model of the polling loop of `generateVideo` (service layer, lines
74-77): while the current operation is not done, wait 10000 ms, then
issue the next poll request and replace the operation with its outcome; a
poll failure propagates immediately.  `none` in the first component means
the fuel ran out with the loop still running; otherwise the final done
operation or the propagated poll error is returned, with the trace of
waits and poll requests. -/
def pollLoop (poll : Nat → Except Err Operation) :
    Operation → Nat → Nat → Option (Except Err Operation) × List VEvent
  | op, k, fuel =>
    if op.done then (some (.ok op), [])
    else
      match fuel with
      | 0 => (none, [])
      | f + 1 =>
        match poll k with
        | .error e => (some (.error e), [.wait 10000, .pollReq k])
        | .ok op2 =>
          let r := pollLoop poll op2 (k + 1) f
          (r.1, .wait 10000 :: .pollReq k :: r.2)


/-- Model of `generateVideo` (service layer, lines 52-87): issue the
initial `generateVideos` request; while the returned operation is not
done, run the polling loop; once a done operation is obtained, read its
result uri, and either fetch the bytes and return the created blob URL,
or, when the uri is absent, throw the fixed error
`Video generation failed.`.  There is no try/catch anywhere, so every
error propagates to the caller unchanged.  `none` in the first component
means the run is still inside the polling loop (fuel exhausted). -/
def generateVideo (env : VideoEnv) : Option (Except Err String) × List VEvent :=
  match env.initial with
  | .error e => (some (.error e), [.genReq])
  | .ok op0 =>
    let r := pollLoop env.poll op0 0 env.fuel
    match r.1 with
    | none => (none, .genReq :: r.2)
    | some (.error e) => (some (.error e), .genReq :: r.2)
    | some (.ok finalOp) =>
      match finalOp.resultUri with
      | none => (some (.error (.msg "Video generation failed.")), .genReq :: r.2)
      | some uri =>
        match env.fetchBlob uri with
        | .error e => (some (.error e), .genReq :: r.2 ++ [.fetchReq uri])
        | .ok blobUrl => (some (.ok blobUrl), .genReq :: r.2 ++ [.fetchReq uri])

/-- The trace a terminating polling loop produces: one fixed 10000 ms
wait followed by one poll request, for `n` consecutive poll indices
starting at `start`. -/
def expectedPollTrace : Nat → Nat → List VEvent
  | _, 0 => []
  | start, n + 1 => .wait 10000 :: .pollReq start :: expectedPollTrace (start + 1) n

/-- Helper: the expected poll trace of length parameter `n` contains
exactly `n` poll requests. -/
theorem expectedPollTrace_count (start n : Nat) :
    (expectedPollTrace start n).countP VEvent.isPoll = n := by
  induction n generalizing start with
  | zero => simp [expectedPollTrace]
  | succ n ih =>
    simp [expectedPollTrace, List.countP_cons, VEvent.isPoll, ih]

/-- Helper for the polling-loop analysis, generalized over the starting
poll index: if the current operation is not done, the next `N` polls
return not-done operations and the poll after them returns a done one,
then with fuel at least `N + 1` the loop returns that done operation and
its trace is exactly a wait before each of the `N + 1` poll requests. -/
theorem pollLoop_terminates (N : Nat) :
    ∀ (ops : Nat → Operation) (op : Operation) (k fuel : Nat),
    op.done = false →
    (∀ j, j < N → (ops (k + j)).done = false) →
    (ops (k + N)).done = true →
    N + 1 ≤ fuel →
    pollLoop (fun i => .ok (ops i)) op k fuel =
      (some (.ok (ops (k + N))), expectedPollTrace k (N + 1)) := by
  induction N with
  | zero =>
    intro ops op k fuel hnd _ hdone hfuel
    match fuel, hfuel with
    | f + 1, _ =>
      rw [pollLoop.eq_def]
      simp only [hnd, Bool.false_eq_true, if_false]
      rw [pollLoop.eq_def]
      simp [Nat.add_zero] at hdone
      simp [hdone, expectedPollTrace]
  | succ N ih =>
    intro ops op k fuel hnd hmid hdone hfuel
    match fuel, hfuel with
    | f + 1, hfuel =>
      rw [pollLoop.eq_def]
      simp only [hnd, Bool.false_eq_true, if_false]
      have h0 : (ops (k + 0)).done = false := hmid 0 (Nat.succ_pos N)
      rw [Nat.add_zero] at h0
      have hrec := ih ops (ops k) (k + 1) f h0
        (fun j hj => by
          have := hmid (j + 1) (Nat.succ_lt_succ hj)
          rwa [Nat.add_comm j 1, ← Nat.add_assoc] at this)
        (by rw [Nat.add_assoc, Nat.add_comm 1 N]; exact hdone)
        (Nat.lt_succ_iff.mp (Nat.lt_of_succ_le hfuel))
      simp only [hrec, expectedPollTrace]
      have : k + 1 + N = k + (N + 1) := by omega
      rw [this]

/-- C3: if the initial video operation is not done, each refresh poll
returns a not-done operation for the first N invocations and a done one
on the N+1th, the polling loop of `generateVideo` performs exactly N+1
poll invocations (each preceded by the fixed 10000 ms wait) and finishes
with the final done operation; and if the initial operation is already
done, the loop performs zero polls and keeps the initial operation. -/
theorem pollLoop_exact_invocations (ops : Nat → Operation) (init : Operation)
    (N fuel : Nat)
    (hnd : init.done = false)
    (hmid : ∀ j, j < N → (ops j).done = false)
    (hdone : (ops N).done = true)
    (hfuel : N + 1 ≤ fuel) :
    pollLoop (fun i => .ok (ops i)) init 0 fuel =
      (some (.ok (ops N)), expectedPollTrace 0 (N + 1)) ∧
    (pollLoop (fun i => .ok (ops i)) init 0 fuel).2.countP VEvent.isPoll = N + 1 ∧
    (∀ (poll : Nat → Except Err Operation) (op : Operation) (fl : Nat),
      op.done = true → pollLoop poll op 0 fl = (some (.ok op), [])) := by
  have hmain := pollLoop_terminates N ops init 0 fuel hnd
    (fun j hj => by simpa using hmid j hj) (by simpa using hdone) hfuel
  simp only [Nat.zero_add] at hmain
  refine ⟨hmain, ?_, ?_⟩
  · rw [hmain]
    exact expectedPollTrace_count 0 (N + 1)
  · intro poll op fl hd
    rw [pollLoop.eq_def]
    simp [hd]

/-- Concrete poll outcomes: not done for indices 0 and 1, done with a
result uri at index 2. -/
def opsW : Nat → Operation := fun k =>
  if k < 2 then { done := false, resultUri := none }
  else { done := true, resultUri := some "https://dl/video.mp4" }

/-- C3, witness: the polling theorem applied with N = 2 concrete polls
and fuel 5, plus its already-done conjunct instantiated at a concrete
done operation. -/
theorem pollLoop_exact_invocations_witness :
    pollLoop (fun i => .ok (opsW i)) { done := false, resultUri := none } 0 5 =
      (some (.ok (opsW 2)), expectedPollTrace 0 3) ∧
    (pollLoop (fun i => .ok (opsW i)) { done := false, resultUri := none } 0 5).2.countP VEvent.isPoll = 3 ∧
    pollLoop (fun i => .ok (opsW i)) { done := true, resultUri := some "u" } 0 5 =
      (some (.ok { done := true, resultUri := some "u" }), []) := by
  have h := pollLoop_exact_invocations opsW { done := false, resultUri := none } 2 5
    rfl (by decide) rfl (by decide)
  exact ⟨h.1, h.2.1, h.2.2 (fun i => .ok (opsW i)) { done := true, resultUri := some "u" } 5 rfl⟩

/-- Model of the error branch of `VideoGenPanel.handleSubmit` (UI layer,
lines 279-284): an error whose message contains the substring
`Requested entity was not found.` is mapped to the `apiKeyError` message
key (and triggers credential reselection), every other error to the
generic `error` key. -/
def videoGenErrorKey (e : Err) : String :=
  if strIncludes e.message "Requested entity was not found." then "apiKeyError"
  else "error"

/-- Helper: the polling loop never issues a fetch request. -/
theorem pollLoop_no_fetch (poll : Nat → Except Err Operation) :
    ∀ (fuel : Nat) (op : Operation) (k : Nat) (uri : String),
    VEvent.fetchReq uri ∉ (pollLoop poll op k fuel).2 := by
  intro fuel
  induction fuel with
  | zero =>
    intro op k uri
    rw [pollLoop.eq_def]
    by_cases h : op.done <;> simp [h]
  | succ f ih =>
    intro op k uri
    rw [pollLoop.eq_def]
    by_cases h : op.done
    · simp [h]
    · simp only [h, Bool.false_eq_true, if_false]
      cases hp : poll k with
      | error e => simp
      | ok op2 =>
        simp only [List.mem_cons]
        push_neg
        exact ⟨by simp, by simp, ih op2 (k + 1) uri⟩

/-- C5: `generateVideo` has no try/catch, so every provider error raised
during the run is returned to the caller as the very same error value:
a failing initial `generateVideos` call, a failing poll inside the loop,
and a failing fetch of the result bytes each propagate unmodified; and
the caller can distinguish the credential-invalidation signature, since
an error whose message contains `Requested entity was not found.` is
mapped to a different message key than any error whose message does not. -/
theorem generateVideo_propagates_errors (env : VideoEnv) (e : Err) :
    (env.initial = .error e → (generateVideo env).1 = some (.error e)) ∧
    (∀ op0, env.initial = .ok op0 →
      (pollLoop env.poll op0 0 env.fuel).1 = some (.error e) →
      (generateVideo env).1 = some (.error e)) ∧
    (∀ op0 finalOp uri, env.initial = .ok op0 →
      (pollLoop env.poll op0 0 env.fuel).1 = some (.ok finalOp) →
      finalOp.resultUri = some uri →
      env.fetchBlob uri = .error e →
      (generateVideo env).1 = some (.error e)) ∧
    (∀ e2 : Err, strIncludes e.message "Requested entity was not found." = true →
      strIncludes e2.message "Requested entity was not found." = false →
      videoGenErrorKey e ≠ videoGenErrorKey e2) := by
  refine ⟨?_, ?_, ?_, ?_⟩
  · intro h
    simp [generateVideo, h]
  · intro op0 h hp
    simp [generateVideo, h, hp]
  · intro op0 finalOp uri h hp hu hf
    simp [generateVideo, h, hp, hu, hf]
  · intro e2 h1 h2
    simp [videoGenErrorKey, h1, h2]

/-- Concrete video environment whose second poll fails with the
credential-invalidation error. -/
def envPollFails : VideoEnv where
  initial := .ok { done := false, resultUri := none }
  poll := fun k =>
    if k = 0 then .ok { done := false, resultUri := none }
    else .error (.msg "Requested entity was not found.")
  fetchBlob := fun _ => .ok "blob:video"
  fuel := 10

/-- C5, witness: the propagation theorem applied to the concrete
environment `envPollFails`, whose second poll raises the
credential-invalidation error. -/
theorem generateVideo_propagates_errors_witness :
    (generateVideo envPollFails).1 =
      some (.error (.msg "Requested entity was not found.")) ∧
    videoGenErrorKey (.msg "Requested entity was not found.") ≠
      videoGenErrorKey (.msg "network down") := by
  have h := generateVideo_propagates_errors envPollFails
    (.msg "Requested entity was not found.")
  exact ⟨h.2.1 { done := false, resultUri := none } rfl rfl,
    h.2.2.2 (.msg "network down") (by decide) (by decide)⟩

/-- C9: when the polling loop finishes with a done operation that carries
no result video uri, `generateVideo` throws the fixed error
`Video generation failed.`, and no fetch of video bytes is issued at any
point of the run, so no blob URL is produced. -/
theorem generateVideo_no_uri_fails (env : VideoEnv) (op0 finalOp : Operation)
    (hinit : env.initial = .ok op0)
    (hpoll : (pollLoop env.poll op0 0 env.fuel).1 = some (.ok finalOp))
    (huri : finalOp.resultUri = none) :
    (generateVideo env).1 = some (.error (.msg "Video generation failed.")) ∧
    (∀ uri, VEvent.fetchReq uri ∉ (generateVideo env).2) := by
  constructor
  · simp [generateVideo, hinit, hpoll, huri]
  · intro uri
    simp only [generateVideo, hinit, hpoll, huri]
    simp only [List.mem_cons]
    push_neg
    exact ⟨by simp, pollLoop_no_fetch env.poll env.fuel op0 0 uri⟩

/-- Concrete video environment whose first poll returns a done operation
with no result uri. -/
def envNoUri : VideoEnv where
  initial := .ok { done := false, resultUri := none }
  poll := fun _ => .ok { done := true, resultUri := none }
  fetchBlob := fun _ => .ok "blob:video"
  fuel := 10

/-- C9, witness: the theorem applied to the concrete environment
`envNoUri`. -/
theorem generateVideo_no_uri_fails_witness :
    (generateVideo envNoUri).1 = some (.error (.msg "Video generation failed.")) ∧
    VEvent.fetchReq "https://dl/video.mp4" ∉ (generateVideo envNoUri).2 := by
  have h := generateVideo_no_uri_fails envNoUri { done := false, resultUri := none }
    { done := true, resultUri := none } rfl rfl rfl
  exact ⟨h.1, h.2 "https://dl/video.mp4"⟩

/-- The role of one chat history entry. -/
inductive Role where
  | user
  | model
deriving DecidableEq, Repr

/-- One entry of the chat panel message history (role plus the text of
its single part). -/
structure ChatMsg where
  role : Role
  text : String
deriving DecidableEq, Repr

/-- The state of the chat panel: the message history, the current input
field, the loading flag, the error message, and whether the chat session
(`chatRef.current`, created once via `createChat`) exists. -/
structure ChatState where
  messages : List ChatMsg
  currentInput : String
  loading : Bool
  error : String
  hasChat : Bool
deriving Repr

/-- A provider interaction of one chat send: the message being sent, or
its response (or failure) resolving. -/
inductive ChatEvent where
  | sendReq (msg : String)
  | respResolved
deriving DecidableEq, Repr

/-- JavaScript `s.trim()`: remove leading and trailing whitespace,
modelled structurally over the character list so that it evaluates by
kernel reduction. -/
def strTrim (s : String) : String :=
  String.mk (((s.toList.dropWhile Char.isWhitespace).reverse.dropWhile
    Char.isWhitespace).reverse)

/-- Model of `ChatPanel.handleSend` (UI layer, lines 157-173): if the
trimmed input is empty or no chat session exists, return immediately with
nothing changed and no provider call; otherwise append the user message,
clear the input, set loading and clear the error, send the input to the
provider and await its resolution, then append the model message on
success or set the error message on failure, and finally clear loading.
The provider stub maps the sent message to its outcome; the trace records
the provider send and its resolution. -/
def handleSend (provider : String → Except Err String) (s : ChatState) :
    ChatState × List ChatEvent :=
  if strTrim s.currentInput = "" ∨ s.hasChat = false then (s, [])
  else
    let userMsg : ChatMsg := { role := .user, text := s.currentInput }
    let promptToSend := s.currentInput
    match provider promptToSend with
    | .ok respText =>
      ({ s with
          messages := s.messages ++ [userMsg, { role := .model, text := respText }],
          currentInput := "", loading := false, error := "" },
       [.sendReq promptToSend, .respResolved])
    | .error _ =>
      ({ s with
          messages := s.messages ++ [userMsg],
          currentInput := "", loading := false, error := "error" },
       [.sendReq promptToSend, .respResolved])

/-- The chat panel state right after mounting: empty history, a chat
session created with empty history. -/
def chatInit : ChatState where
  messages := []
  currentInput := ""
  loading := false
  error := ""
  hasChat := true

/-- C8: starting from a fresh chat panel, typing a non-empty first
message and completing its send, then typing a non-empty second message
and completing its send, with both provider responses succeeding, leaves
a history of exactly 4 entries in strictly alternating user/model order,
and the combined provider trace shows the second send issued only after
the first response resolved. -/
theorem chat_two_sends_alternating (provider : String → Except Err String)
    (m1 m2 r1 r2 : String)
    (h1 : strTrim m1 ≠ "")
    (h2 : strTrim m2 ≠ "")
    (hp1 : provider m1 = .ok r1)
    (hp2 : provider m2 = .ok r2) :
    let step1 := handleSend provider { chatInit with currentInput := m1 }
    let step2 := handleSend provider { step1.1 with currentInput := m2 }
    step2.1.messages =
      [{ role := .user, text := m1 }, { role := .model, text := r1 },
       { role := .user, text := m2 }, { role := .model, text := r2 }] ∧
    step2.1.messages.length = 4 ∧
    step2.1.messages.map ChatMsg.role = [.user, .model, .user, .model] ∧
    step1.2 ++ step2.2 = [.sendReq m1, .respResolved, .sendReq m2, .respResolved] := by
  simp only [handleSend, chatInit]
  simp [h1, h2, hp1, hp2]

/-- C8, witness: the theorem applied to the concrete messages `hi` and
`how are you` with a concrete echoing provider. -/
theorem chat_two_sends_alternating_witness :
    let providerW : String → Except Err String := fun m => .ok ("re: " ++ m)
    let step1 := handleSend providerW { chatInit with currentInput := "hi" }
    let step2 := handleSend providerW { step1.1 with currentInput := "how are you" }
    step2.1.messages =
      [{ role := .user, text := "hi" }, { role := .model, text := "re: hi" },
       { role := .user, text := "how are you" }, { role := .model, text := "re: how are you" }] ∧
    step2.1.messages.length = 4 ∧
    step2.1.messages.map ChatMsg.role = [.user, .model, .user, .model] ∧
    step1.2 ++ step2.2 =
      [.sendReq "hi", .respResolved, .sendReq "how are you", .respResolved] :=
  chat_two_sends_alternating (fun m => .ok ("re: " ++ m)) "hi" "how are you"
    "re: hi" "re: how are you" (by decide) (by decide) rfl rfl

/-- C10: if the current input trims to the empty string, or no chat
session exists, `handleSend` returns before doing anything: no provider
call is made, no event is issued, and the whole state, in particular the
message history, is unchanged. -/
theorem handleSend_empty_input_noop (provider : String → Except Err String)
    (s : ChatState)
    (h : strTrim s.currentInput = "" ∨ s.hasChat = false) :
    handleSend provider s = (s, []) ∧
    (handleSend provider s).1.messages = s.messages ∧
    (∀ m, ChatEvent.sendReq m ∉ (handleSend provider s).2) := by
  have heq : handleSend provider s = (s, []) := by
    simp [handleSend, h]
  exact ⟨heq, by rw [heq], by rw [heq]; simp⟩

/-- C10, witness: the theorem applied to a state whose input is
whitespace only. -/
theorem handleSend_empty_input_noop_witness :
    handleSend (fun m => .ok ("re: " ++ m)) { chatInit with currentInput := "   " } =
      ({ chatInit with currentInput := "   " }, []) ∧
    (handleSend (fun m => .ok ("re: " ++ m)) { chatInit with currentInput := "   " }).1.messages =
      ({ chatInit with currentInput := "   " } : ChatState).messages ∧
    ChatEvent.sendReq "   " ∉
      (handleSend (fun m => .ok ("re: " ++ m)) { chatInit with currentInput := "   " }).2 := by
  have h := handleSend_empty_input_noop (fun m => .ok ("re: " ++ m))
    { chatInit with currentInput := "   " } (Or.inl (by decide))
  exact ⟨h.1, h.2.1, h.2.2 "   "⟩

/-- The inline payload a response part may carry: base64 image bytes and
their mime type. -/
structure InlineData where
  mimeType : String
  data : String
deriving DecidableEq, Repr

/-- One part of the `generateContent` response scanned by `editImage`:
it optionally carries inline image data (text parts carry none). -/
structure RespPart where
  inlineData : Option InlineData
deriving DecidableEq, Repr

/-- The first inline-data payload among the response parts, if any. -/
def firstInline : List RespPart → Option InlineData
  | [] => none
  | p :: rest =>
    match p.inlineData with
    | some d => some d
    | none => firstInline rest

/-- Model of the result handling of `editImage` (service layer, lines
105-111): walk the returned parts in order and return a data URI built
from the first part carrying inline data; if the walk finds none, throw
the fixed error `Image editing failed.`. -/
def scanParts : List RespPart → Except Err String
  | [] => .error (.msg "Image editing failed.")
  | p :: rest =>
    match p.inlineData with
    | some d => .ok ("data:" ++ d.mimeType ++ ";base64," ++ d.data)
    | none => scanParts rest

/-- Model of `editImage` (service layer, lines 89-112): the provider call
either fails, propagating its error unchanged (no try/catch), or returns
the list of response parts, which is scanned for the first inline-data
part. -/
def editImage (resp : Except Err (List RespPart)) : Except Err String :=
  match resp with
  | .error e => .error e
  | .ok parts => scanParts parts

/-- Helper: scanning the parts returns the data URI of the first
inline-data part when one exists, and the fixed no-artifact error when
none does. -/
theorem scanParts_firstInline (parts : List RespPart) :
    (∀ d, firstInline parts = some d →
      scanParts parts = .ok ("data:" ++ d.mimeType ++ ";base64," ++ d.data)) ∧
    (firstInline parts = none →
      scanParts parts = .error (.msg "Image editing failed.")) := by
  induction parts with
  | nil => exact ⟨fun d h => by simp [firstInline] at h, fun _ => rfl⟩
  | cons p rest ih =>
    cases hp : p.inlineData with
    | some d0 =>
      refine ⟨fun d h => ?_, fun h => ?_⟩
      · simp [firstInline, hp] at h
        simp [scanParts, hp, h]
      · simp [firstInline, hp] at h
    | none =>
      refine ⟨fun d h => ?_, fun h => ?_⟩
      · simp [firstInline, hp] at h
        simpa [scanParts, hp] using ih.1 d h
      · simp [firstInline, hp] at h
        simpa [scanParts, hp] using ih.2 h

/-- C6: when the `editImage` provider call succeeds, the result is the
data URI built from the mime type and base64 bytes of the first response
part carrying inline data; when no part carries inline data, the call
fails with the fixed no-artifact error `Image editing failed.`, which is
produced only after a successful provider call and differs from every
provider-call error whose message is not that fixed string. -/
theorem editImage_first_inline (parts : List RespPart) (e : Err) :
    (∀ d, firstInline parts = some d →
      editImage (.ok parts) = .ok ("data:" ++ d.mimeType ++ ";base64," ++ d.data)) ∧
    (firstInline parts = none →
      editImage (.ok parts) = .error (.msg "Image editing failed.")) ∧
    (editImage (.error e) = .error e) ∧
    (e.message ≠ "Image editing failed." →
      editImage (.error e) ≠ .error (.msg "Image editing failed.")) := by
  refine ⟨fun d h => ?_, fun h => ?_, rfl, fun hne heq => ?_⟩
  · simpa [editImage] using (scanParts_firstInline parts).1 d h
  · simpa [editImage] using (scanParts_firstInline parts).2 h
  · cases e with
    | msg s =>
      simp [editImage] at heq
      exact hne (by simpa [Err.message] using heq)

/-- Concrete response parts: a text-only part (no inline data) followed
by an inline-data part. -/
def partsW : List RespPart :=
  [{ inlineData := none },
   { inlineData := some { mimeType := "image/png", data := "QUJD" } }]

/-- C6, witness: the theorem applied to the concrete parts list `partsW`,
whose second part is the first to carry inline data, and to a concrete
provider error. -/
theorem editImage_first_inline_witness :
    editImage (.ok partsW) = .ok ("data:" ++ "image/png" ++ ";base64," ++ "QUJD") ∧
    editImage (.ok ([{ inlineData := none }] : List RespPart)) =
      .error (.msg "Image editing failed.") ∧
    editImage (.error (.msg "provider down")) = .error (.msg "provider down") ∧
    editImage (.error (.msg "provider down")) ≠ .error (.msg "Image editing failed.") := by
  have h := editImage_first_inline partsW (.msg "provider down")
  have h2 := editImage_first_inline ([{ inlineData := none }] : List RespPart)
    (.msg "provider down")
  exact ⟨h.1 { mimeType := "image/png", data := "QUJD" } rfl, h2.2.1 rfl,
    h.2.2.1, h.2.2.2 (by decide)⟩
